import Mathlib

/-!
# Verification of the AssessmentCreator prompt builder and generation client

Shallow embedding of `src/main/utilities.py` (functions
`generate_prompt_assessment` and `get_result`) and of the exception
mapping in the `POST /api/v2/generate_assessment` endpoint of
`src/main/routes.py`.

Python's dynamically typed dictionaries are modelled with `Option` fields
(`none` = key absent or value `None`, except where the code distinguishes
the two, which it does only for `tools` via `card.get('tools', [])`).
Python exceptions become an explicit `PyError` sum carried in `Except`.
-/

namespace AssessmentCreator

/-- A Python scalar as it may appear in the `noOfQuestions` slot: the
function is dynamically typed, so the value may be an `int` or a `str`
(the HTTP layer's pydantic model coerces to `int`, but
`generate_prompt_assessment` itself accepts either). -/
inductive PyVal where
  | int (n : Int)
  | str (s : String)
  deriving DecidableEq, Repr

/-- Python truthiness of a scalar: `0` and `""` are falsy. -/
def PyVal.truthy : PyVal → Bool
  | .int n => n != 0
  | .str s => s != ""

/-- Python `str(v)` / f-string interpolation of the scalar. -/
def PyVal.render : PyVal → String
  | .int n => toString n
  | .str s => s

/-- The Python exceptions that flow through this code base.
`exception` is a bare `Exception(msg)`; `httpStatusError` is
`httpx.HTTPStatusError` (raised by `raise_for_status`); `requestError`
is `httpx.RequestError` (transport failure); `typeError` stands for the
uncaught extraction failures (`TypeError`/`IndexError`) when the
response JSON lacks the expected path. -/
inductive PyError where
  | valueError (msg : String)
  | keyError (key : String)
  | typeError (msg : String)
  | httpStatusError (status : Nat)
  | requestError (msg : String)
  | exception (msg : String)
  deriving DecidableEq, Repr

/-- Python `str(e)` for the exceptions above. Python's `KeyError.__str__` is
the `repr` of the missing key, i.e. the key wrapped in single quotes. -/
def PyError.pyStr : PyError → String
  | .valueError m => m
  | .keyError k => "'" ++ k ++ "'"
  | .typeError m => m
  | .httpStatusError s => "HTTP status error " ++ toString s
  | .requestError m => m
  | .exception m => m

/-- One card of the request, as the dict that reaches
`generate_prompt_assessment`. A field being `none` means the key is
absent or its value is `None` — the code reads all of them with
`card.get(...)`, which conflates the two, except `tools`: there
`card.get('tools', [])` distinguishes key-absent (defaults to `[]`)
from key-present-with-`None`, hence the nested `Option`. -/
structure Card where
  keywords : Option (List String)
  tools : Option (Option (List String))
  level : Option String
  noOfQuestions : Option PyVal
  deriving DecidableEq, Repr

/-- The `assessment_data` dict: `none` means the key is absent. -/
structure AssessmentData where
  role : Option String
  card : Option Card
  deriving DecidableEq, Repr

/-- Python `str.lower()` (ASCII-faithful; the code only compares against
ASCII literals). -/
def pyLower (s : String) : String := ⟨s.data.map Char.toLower⟩

/-- Base-10 digit accumulation for `int()`: `none` on the first
non-digit character. -/
def digitsAcc : List Char → Nat → Option Nat
  | [], acc => some acc
  | c :: rest, acc => if c.isDigit then digitsAcc rest (acc * 10 + (c.toNat - 48)) else none

/-- Python `int(s)` on a string: optional sign, then at least one base-10
digit (surrounding whitespace, which Python also accepts, is not
modelled — no claim involves it). -/
def pyStrToInt? (s : String) : Option Int :=
  match s.data with
  | [] => none
  | '-' :: rest => if rest = [] then none else (digitsAcc rest 0).map (fun n => -(n : Int))
  | '+' :: rest => if rest = [] then none else (digitsAcc rest 0).map (fun n => (n : Int))
  | l => (digitsAcc l 0).map (fun n => (n : Int))

/-- Python `int(v)`: identity on ints; on strings, base-10 parsing, raising
`ValueError` on failure (the message mirrors CPython's). -/
def pyIntConv : PyVal → Except PyError Int
  | .int n => .ok n
  | .str s =>
    match pyStrToInt? s with
    | some n => .ok n
    | none => .error (.valueError ("invalid literal for int() with base 10: '" ++ s ++ "'"))

/-- Python join with the separator comma-space: `', '.join(l)`. -/
def joinComma (l : List String) : String := String.intercalate ", " l

/-- Embedding of `generate_prompt_assessment` (src/main/utilities.py,
lines 9-50). Raised `ValueError`s become `Except.error`.

The Python truthiness test
`not (keywords and tools is not None and level and no_of_questions)` is
rendered as: each of the four `card.get` results must be non-`None`,
`keywords`/`level`/`noOfQuestions` must additionally be truthy, and
`tools` only non-`None` (an empty list passes). -/
def generate_prompt_assessment (d : AssessmentData) : Except PyError String :=
  match d.role, d.card with
  | some role, some card =>
    match card.keywords, card.tools.getD (some []), card.level, card.noOfQuestions with
    | some keywords, some tools, some level, some no_of_questions =>
      if keywords = [] ∨ level = "" ∨ no_of_questions.truthy = false then
        .error (.valueError "Missing required fields in one of the cards")
      else
        match pyIntConv no_of_questions with
        | .error e => .error e
        | .ok n =>
          if n < 1 then
            .error (.valueError "Number of questions must be greater than 1")
          else if pyLower level ∉ (["low", "medium", "high"] : List String) then
            .error (.valueError "Level must be 'low', 'medium', or 'high'")
          else
            let tools_str := if tools ≠ [] then " using " ++ joinComma tools else ""
            .ok ("I want " ++ no_of_questions.render ++ " assessment questions of "
                 ++ level ++ " complexity for " ++ role ++ " on "
                 ++ joinComma keywords ++ tools_str ++ ".")
    | _, _, _, _ => .error (.valueError "Missing required fields in one of the cards")
  | _, _ => .error (.valueError "Missing required assessment data")

/-- The Bloom's-taxonomy context preamble of `get_result`
(src/main/utilities.py, lines 67-70): the parenthesised constant part of
`final_prompt`, before the f-string appends the prompt. -/
def bloom_preamble : String :=
  "I am creating an assessment with the following specifications. "
  ++ "Low complexity should be Blooms level 1 and 2 that test recall and comprehension. "
  ++ "Medium complexity should be Blooms level 3 of type application. "
  ++ "High complexity should be Blooms level 4 of type analysis, preferably scenario-based. "

/-- Embedding of the local variable `final_prompt` of `get_result`
(src/main/utilities.py, line 67-71): the preamble, a newline, then the
prompt. In the source this value is computed and logged but never used
again. -/
def final_prompt (prompt : String) : String := bloom_preamble ++ "\n" ++ prompt

/-- Embedding of the constant `example_format` of `get_result`
(src/main/utilities.py, lines 75-101): the fixed output-format template,
reproduced verbatim (braces of the embedded C snippet written with hex
escapes). -/
def example_format : String :=
  "MCQ strictly has to be in below format:\n"
  ++ "Format:\n **Question 1 question**\n"
  ++ "A. Option 1\n"
  ++ "B. Option 2\n"
  ++ "C. Option 3\n"
  ++ "D. Option 4\n"
  ++ "\n**Answer: Option no. Answer**\n"
  ++ "MCQ Format Example:\n"
  ++ "**Question 10**\n"
  ++ "What is the purpose of the following code?\n"
  ++ "```c\n"
  ++ "int arr[] = \x7b1, 2, 3, 4, 5\x7d;\n"
  ++ "int sum, product;\n"
  ++ "sum = product = 1;\n"
  ++ "for (int i = 0; i < 5; i++) \x7b\n"
  ++ "  sum += arr[i];\n"
  ++ "  product *= arr[i];\n"
  ++ "\x7d\n"
  ++ "```\n"
  ++ "A. To calculate the sum and product of all elements in the array\n"
  ++ "B. To calculate the average and standard deviation of all elements in the array\n"
  ++ "C. To reverse the order of elements in the array\n"
  ++ "D. To sort the elements in the array\n"
  ++ "\n**Answer: A. To calculate the sum and product of all elements in the array**\n"
  ++ "No need to separate questions topic-wise and mention the topic and Write complete answer don't change the example format, all MCQ questions should be in given format"

/-- The text field of the request body assembled by `get_result`
(src/main/utilities.py, line 109): `"text": prompt + example_format`. -/
def requestText (prompt : String) : String := prompt ++ example_format

/-- Outcome of the one `client.post` call as the provider determines it:
either a response with a status code and (the extraction of) the text at
the fixed path `candidates[0].content.parts[0].text` — `none` when the
path is absent, in which case the chained `.get`/`[0]` extraction raises
an uncaught `TypeError`/`IndexError`, modelled coarsely as one typed
extraction error — or an `httpx.RequestError` (connection error, timeout,
DNS failure). -/
inductive HttpOutcome where
  | response (status : Nat) (textAtPath : Option String)
  | transportError (msg : String)
  deriving DecidableEq, Repr

/-- What one invocation of `get_result` did: the text field it posted,
how many POST requests it issued, and the returned string or raised
exception. -/
structure CallTrace where
  sentText : String
  numRequests : Nat
  result : Except PyError String
  deriving Repr

/-- Embedding of `get_result` (src/main/utilities.py, lines 52-128).
`net` maps a posted text field to the provider's outcome for it. The
body carries `prompt + example_format` plus the opaque pass-through
configuration objects (`generationConfig`, `safetySettings`), which no
claim inspects and which are therefore not modelled. Exactly one POST is
issued (`numRequests = 1`). `response.raise_for_status()` raises
`httpx.HTTPStatusError` on a non-2xx status; the `except` clause catches
only `httpx.RequestError` (of which `HTTPStatusError` is not a subclass)
and re-raises it as `Exception("Error in getting response from Gemini
API")`, so status and extraction errors propagate as themselves. -/
def get_result (prompt : String) (net : String → HttpOutcome) : CallTrace :=
  let body := requestText prompt
  { sentText := body
    numRequests := 1
    result :=
      match net body with
      | .transportError _ =>
        .error (.exception "Error in getting response from Gemini API")
      | .response status textAtPath =>
        if status < 200 ∨ 300 ≤ status then
          .error (.httpStatusError status)
        else
          match textAtPath with
          | some text => .ok text
          | none => .error (.typeError "'NoneType' object is not subscriptable") }

/-- An HTTP response of the `POST /api/v2/generate_assessment` endpoint:
either 200 with a JSON body carrying the assessment string, or an
`HTTPException` with a status code and a detail message. -/
inductive EndpointResult where
  | ok (assessment : String)
  | httpException (status : Nat) (detail : String)
  deriving DecidableEq, Repr

/-- Embedding of the exception mapping of `generate_assessment_endpoint`
(src/main/routes.py, lines 33-55): the service call
`generate_assessment(assessment_data)` either returns a string or raises;
a `KeyError` becomes HTTP 400 with detail
`"Missing key in input data: " + str(e)`, any other exception becomes
HTTP 500 with detail `"An error occurred: " + str(e)`, and a returned
string `s` becomes HTTP 200 with body containing `s` as the
assessment. -/
def generate_assessment_endpoint (serviceResult : Except PyError String) : EndpointResult :=
  match serviceResult with
  | .ok s => .ok s
  | .error (.keyError k) =>
    .httpException 400 ("Missing key in input data: " ++ (PyError.keyError k).pyStr)
  | .error e => .httpException 500 ("An error occurred: " ++ e.pyStr)

/-- Rendering rule as the spec words it (for comparison with the embedded
function): the string
`"I want {noOfQuestions} assessment questions of {level} complexity for
{role} on {comma-joined keywords}{tools_suffix}."` where `tools_suffix`
is `" using {comma-joined tools}"` when `tools` is non-empty and the
empty string otherwise. -/
def spec_rendered_prompt (noq level role : String) (keywords tools : List String) : String :=
  "I want " ++ noq ++ " assessment questions of " ++ level ++ " complexity for " ++ role
  ++ " on " ++ joinComma keywords
  ++ (if tools ≠ [] then " using " ++ joinComma tools else "") ++ "."

/-- Substring occurrence: `pat` occurs contiguously inside `s`. -/
def strContains (s pat : String) : Prop := pat.data <:+: s.data

instance (s pat : String) : Decidable (strContains s pat) :=
  inferInstanceAs (Decidable (pat.data <:+: s.data))

end AssessmentCreator

open AssessmentCreator

/-- A card whose four fields are present and truthy, whose question count
converts to an integer at least 1 and whose level lower-cases into the
allowed set renders the template. Shared helper for several claims. -/
lemma gpa_ok (role level : String) (kws tools : List String) (q : PyVal) (n : Int)
    (hk : kws ≠ []) (hl : level ≠ "") (hq : q.truthy = true)
    (hc : pyIntConv q = .ok n) (hn : 1 ≤ n)
    (hlev : pyLower level ∈ (["low", "medium", "high"] : List String)) :
    generate_prompt_assessment
      ⟨some role, some ⟨some kws, some (some tools), some level, some q⟩⟩
      = .ok (spec_rendered_prompt q.render level role kws tools) := by
  simp only [generate_prompt_assessment, Option.getD_some, hc]
  rw [if_neg (by simp [hk, hl, hq]), if_neg (by omega), if_neg (by simp [hlev])]
  simp only [spec_rendered_prompt, String.append_assoc]

/-- With all four fields present, a falsy field (empty keyword list, empty
level string, or falsy question count) raises the missing-fields error. -/
lemma gpa_missing_of_falsy (role level : String) (kws tools : List String) (q : PyVal)
    (h : kws = [] ∨ level = "" ∨ q.truthy = false) :
    generate_prompt_assessment
      ⟨some role, some ⟨some kws, some (some tools), some level, some q⟩⟩
      = .error (.valueError "Missing required fields in one of the cards") := by
  simp only [generate_prompt_assessment, Option.getD_some]
  rw [if_pos h]

/-- A truthy question count converting below 1 raises the count error,
whatever the level is (the level check comes later). -/
lemma gpa_count_error (role level : String) (kws tools : List String) (q : PyVal) (n : Int)
    (hk : kws ≠ []) (hl : level ≠ "") (hq : q.truthy = true)
    (hc : pyIntConv q = .ok n) (hn : n < 1) :
    generate_prompt_assessment
      ⟨some role, some ⟨some kws, some (some tools), some level, some q⟩⟩
      = .error (.valueError "Number of questions must be greater than 1") := by
  simp only [generate_prompt_assessment, Option.getD_some, hc]
  rw [if_neg (by simp [hk, hl, hq]), if_pos hn]

/-- A level that lower-cases outside the allowed set raises the level
error once the earlier checks pass. -/
lemma gpa_level_error (role level : String) (kws tools : List String) (q : PyVal) (n : Int)
    (hk : kws ≠ []) (hl : level ≠ "") (hq : q.truthy = true)
    (hc : pyIntConv q = .ok n) (hn : 1 ≤ n)
    (hlev : pyLower level ∉ (["low", "medium", "high"] : List String)) :
    generate_prompt_assessment
      ⟨some role, some ⟨some kws, some (some tools), some level, some q⟩⟩
      = .error (.valueError "Level must be 'low', 'medium', or 'high'") := by
  simp only [generate_prompt_assessment, Option.getD_some, hc]
  rw [if_neg (by simp [hk, hl, hq]), if_neg (by omega), if_pos (by simp [hlev])]

/-- With every other field unchanged, leaving the tools key out of the
card is the same as supplying an empty tools list: `card.get` fills in
the `[]` default. -/
lemma gpa_tools_key_absent_eq (role lv : String) (kws : List String) (q : PyVal) :
    generate_prompt_assessment ⟨some role, some ⟨some kws, none, some lv, some q⟩⟩
      = generate_prompt_assessment ⟨some role, some ⟨some kws, some (some []), some lv, some q⟩⟩ :=
  rfl

/-- C1 (code_bug): the claim states that the text field sent to the
provider by `get_result p` is the Bloom preamble, then `p`, then the
output-format template. The code posts `prompt + example_format`: the
preamble (`final_prompt`) is computed and logged but never enters the
request body. At `p = "Q"` the sent text is not
`final_prompt "Q" ++ example_format` and the preamble is not even a
prefix of it. -/
theorem claim_C1_preamble_never_sent (p : String) (net : String → HttpOutcome) :
    (get_result p net).sentText = p ++ example_format ∧
    (get_result "Q" (fun t => .response 200 (some t))).sentText
      ≠ final_prompt "Q" ++ example_format ∧
    ¬ bloom_preamble.data <+: (get_result "Q" (fun t => .response 200 (some t))).sentText.data := by
  refine ⟨rfl, by decide, by decide⟩

/-- C2 counterexample: with the tools key absent and every other field
valid, `generate_prompt_assessment` succeeds (returning the rendered
prompt) instead of failing with a validation error as the claim
requires. -/
theorem claim_C2_counterexample :
    generate_prompt_assessment
      ⟨some "Backend Engineer", some ⟨some ["APIs"], none, some "low", some (.int 2)⟩⟩
      = .ok "I want 2 assessment questions of low complexity for Backend Engineer on APIs." :=
  rfl

/-- C2 (corrected): when the tools key is absent, `card.get('tools', [])`
substitutes the empty list and `generate_prompt_assessment` succeeds
(with no tools suffix); the missing-fields validation error is raised for
tools only when the key is present with value `None`. -/
theorem claim_C2_absent_tools_defaults (role lv : String) (kws : List String) (n : Int)
    (hk : kws ≠ []) (hl : lv ≠ "") (hn : 1 ≤ n)
    (hlev : pyLower lv ∈ (["low", "medium", "high"] : List String)) :
    generate_prompt_assessment ⟨some role, some ⟨some kws, none, some lv, some (.int n)⟩⟩
      = .ok (spec_rendered_prompt (toString n) lv role kws []) ∧
    generate_prompt_assessment ⟨some role, some ⟨some kws, some none, some lv, some (.int n)⟩⟩
      = .error (.valueError "Missing required fields in one of the cards") := by
  constructor
  · rw [gpa_tools_key_absent_eq]
    exact gpa_ok role lv kws [] (.int n) n hk hl
      (by simp only [PyVal.truthy, bne_iff_ne, ne_eq, decide_eq_true_eq]; omega)
      rfl hn hlev
  · rfl

/-- Witness for C2: the amended behaviour evaluated at a concrete card
with the tools key absent, respectively present with value null. -/
theorem claim_C2_witness :
    generate_prompt_assessment
      ⟨some "Backend Engineer", some ⟨some ["APIs"], none, some "low", some (.int 2)⟩⟩
      = .ok (spec_rendered_prompt (toString (2 : Int)) "low" "Backend Engineer" ["APIs"] []) ∧
    generate_prompt_assessment
      ⟨some "Backend Engineer", some ⟨some ["APIs"], some none, some "low", some (.int 2)⟩⟩
      = .error (.valueError "Missing required fields in one of the cards") :=
  claim_C2_absent_tools_defaults "Backend Engineer" "low" ["APIs"] 2
    (by decide) (by decide) (by decide) (by decide)

/-- C3 (confirmed): for every input passing validation, the rendered
prompt is exactly the template of the spec (count, level and role
interpolated, keywords and tools joined with comma-space in input order,
the using-suffix only for non-empty tools), and the end-to-end scenario
of the claim produces exactly the stated string. -/
theorem claim_C3_rendering (role lv : String) (kws tools : List String) (q : PyVal) (n : Int)
    (hk : kws ≠ []) (hl : lv ≠ "") (hq : q.truthy = true)
    (hc : pyIntConv q = .ok n) (hn : 1 ≤ n)
    (hlev : pyLower lv ∈ (["low", "medium", "high"] : List String)) :
    generate_prompt_assessment ⟨some role, some ⟨some kws, some (some tools), some lv, some q⟩⟩
      = .ok (spec_rendered_prompt q.render lv role kws tools) ∧
    generate_prompt_assessment
      ⟨some "Backend Engineer", some ⟨some ["APIs"], some (some []), some "low", some (.int 2)⟩⟩
      = .ok "I want 2 assessment questions of low complexity for Backend Engineer on APIs." :=
  ⟨gpa_ok role lv kws tools q n hk hl hq hc hn hlev, rfl⟩

/-- Witness for C3: the rendering theorem applied to the claim's
end-to-end scenario input. -/
theorem claim_C3_witness :
    generate_prompt_assessment
      ⟨some "Backend Engineer", some ⟨some ["APIs"], some (some []), some "low", some (.int 2)⟩⟩
      = .ok (spec_rendered_prompt (PyVal.int 2).render "low" "Backend Engineer" ["APIs"] []) ∧
    generate_prompt_assessment
      ⟨some "Backend Engineer", some ⟨some ["APIs"], some (some []), some "low", some (.int 2)⟩⟩
      = .ok "I want 2 assessment questions of low complexity for Backend Engineer on APIs." :=
  claim_C3_rendering "Backend Engineer" "low" ["APIs"] [] (.int 2) 2
    (by decide) (by decide) (by decide) rfl (by decide) (by decide)

/-- C4 counterexample: with the provider answering HTTP 503,
`get_result` fails with the typed `httpx.HTTPStatusError` raised by
`raise_for_status`, not with the single generic provider-failure
`Exception` — the `except` clause catches only `httpx.RequestError`,
which `HTTPStatusError` is not. -/
theorem claim_C4_counterexample :
    (get_result "Prompt" (fun _ => .response 503 none)).result
      = .error (.httpStatusError 503) ∧
    (get_result "Prompt" (fun _ => .response 503 none)).result
      ≠ .error (.exception "Error in getting response from Gemini API") := by
  refine ⟨rfl, fun h => ?_⟩
  rw [show (get_result "Prompt" (fun _ => .response 503 none)).result
        = .error (.httpStatusError 503) from rfl] at h
  simp at h

/-- C4 (corrected): on any non-success HTTP status, `get_result` fails by
letting the status error propagate as itself (a distinct typed error,
untranslated), issues no retry (exactly one POST), and returns no
partial string. -/
theorem claim_C4_status_error_propagates (p : String) (st : Nat) (t : Option String)
    (h : st < 200 ∨ 300 ≤ st) :
    (get_result p (fun _ => .response st t)).result = .error (.httpStatusError st) ∧
    (get_result p (fun _ => .response st t)).numRequests = 1 := by
  refine ⟨?_, rfl⟩
  simp only [get_result]
  rw [if_pos h]

/-- Witness for C4: the amended status-error behaviour evaluated at a
simulated provider returning HTTP 503. -/
theorem claim_C4_witness :
    (get_result "Prompt" (fun _ => .response 503 (some "partial"))).result
      = .error (.httpStatusError 503) ∧
    (get_result "Prompt" (fun _ => .response 503 (some "partial"))).numRequests = 1 :=
  claim_C4_status_error_propagates "Prompt" 503 (some "partial") (by omega)

/-- C5 counterexample: with a card present and `noOfQuestions = 0` (an
integer), the error raised is the missing-required-fields one — `0` is
falsy, so the field-presence truthiness check trips first — not the
claimed count error. -/
theorem claim_C5_counterexample :
    generate_prompt_assessment
      ⟨some "Backend Engineer", some ⟨some ["APIs"], some (some []), some "low", some (.int 0)⟩⟩
      = .error (.valueError "Missing required fields in one of the cards") ∧
    generate_prompt_assessment
      ⟨some "Backend Engineer", some ⟨some ["APIs"], some (some []), some "low", some (.int 0)⟩⟩
      ≠ .error (.valueError "Number of questions must be greater than 1") := by
  refine ⟨rfl, fun h => ?_⟩
  rw [show generate_prompt_assessment
        ⟨some "Backend Engineer", some ⟨some ["APIs"], some (some []), some "low", some (.int 0)⟩⟩
        = .error (.valueError "Missing required fields in one of the cards") from rfl] at h
  simp at h

/-- C5 (corrected): `noOfQuestions = 0` does fail validation, but with the
missing-required-fields error (the integer `0` is falsy); the claimed
message arises only for a truthy value converting below 1, such as the
string `"0"`; and `noOfQuestions = 1` succeeds (the check is `< 1`). -/
theorem claim_C5_zero_vs_one (role lv : String) (kws tools : List String)
    (hk : kws ≠ []) (hl : lv ≠ "")
    (hlev : pyLower lv ∈ (["low", "medium", "high"] : List String)) :
    generate_prompt_assessment ⟨some role, some ⟨some kws, some (some tools), some lv, some (.int 0)⟩⟩
      = .error (.valueError "Missing required fields in one of the cards") ∧
    generate_prompt_assessment ⟨some role, some ⟨some kws, some (some tools), some lv, some (.str "0")⟩⟩
      = .error (.valueError "Number of questions must be greater than 1") ∧
    generate_prompt_assessment ⟨some role, some ⟨some kws, some (some tools), some lv, some (.int 1)⟩⟩
      = .ok (spec_rendered_prompt "1" lv role kws tools) := by
  refine ⟨?_, ?_, ?_⟩
  · exact gpa_missing_of_falsy role lv kws tools (.int 0) (by simp [PyVal.truthy])
  · exact gpa_count_error role lv kws tools (.str "0") 0 hk hl (by decide) rfl (by omega)
  · exact gpa_ok role lv kws tools (.int 1) 1 hk hl (by decide) rfl (by omega) hlev

/-- Witness for C5: the corrected boundary behaviour at a concrete
otherwise-valid card. -/
theorem claim_C5_witness :
    generate_prompt_assessment
      ⟨some "R", some ⟨some ["SQL"], some (some []), some "low", some (.int 0)⟩⟩
      = .error (.valueError "Missing required fields in one of the cards") ∧
    generate_prompt_assessment
      ⟨some "R", some ⟨some ["SQL"], some (some []), some "low", some (.str "0")⟩⟩
      = .error (.valueError "Number of questions must be greater than 1") ∧
    generate_prompt_assessment
      ⟨some "R", some ⟨some ["SQL"], some (some []), some "low", some (.int 1)⟩⟩
      = .ok (spec_rendered_prompt "1" "low" "R" ["SQL"] []) :=
  claim_C5_zero_vs_one "R" "low" ["SQL"] [] (by decide) (by decide) (by decide)

/-- C6 (confirmed): level acceptance is case-insensitive over the three
allowed values — for any otherwise-valid card, `level = "HIGH"` succeeds
and `level = "extreme"` fails with the level validation error. -/
theorem claim_C6_level_case_insensitive (role : String) (kws tools : List String) (n : Int)
    (hk : kws ≠ []) (hn : 1 ≤ n) :
    (∃ s, generate_prompt_assessment
        ⟨some role, some ⟨some kws, some (some tools), some "HIGH", some (.int n)⟩⟩ = .ok s) ∧
    generate_prompt_assessment
        ⟨some role, some ⟨some kws, some (some tools), some "extreme", some (.int n)⟩⟩
      = .error (.valueError "Level must be 'low', 'medium', or 'high'") := by
  have htruthy : (PyVal.int n).truthy = true := by
    simp only [PyVal.truthy, bne_iff_ne, ne_eq, decide_eq_true_eq]; omega
  refine ⟨⟨_, gpa_ok role "HIGH" kws tools (.int n) n hk (by decide) htruthy rfl hn
    (by decide)⟩, ?_⟩
  exact gpa_level_error role "extreme" kws tools (.int n) n hk (by decide) htruthy rfl hn
    (by decide)

/-- Witness for C6: the case-insensitivity theorem at a concrete
otherwise-valid card. -/
theorem claim_C6_witness :
    (∃ s, generate_prompt_assessment
        ⟨some "Dev", some ⟨some ["Git"], some (some []), some "HIGH", some (.int 3)⟩⟩ = .ok s) ∧
    generate_prompt_assessment
        ⟨some "Dev", some ⟨some ["Git"], some (some []), some "extreme", some (.int 3)⟩⟩
      = .error (.valueError "Level must be 'low', 'medium', or 'high'") :=
  claim_C6_level_case_insensitive "Dev" ["Git"] [] 3 (by decide) (by decide)

/-- C7 counterexample: on an input violating several conditions (a
present-but-zero `noOfQuestions` and an invalid level), the error raised
is the missing-required-fields one from the truthiness check, not the
count error the claim predicts for a present-but-zero count reaching
check (3). -/
theorem claim_C7_counterexample :
    generate_prompt_assessment
      ⟨some "R", some ⟨some ["SQL"], some (some []), some "extreme", some (.int 0)⟩⟩
      = .error (.valueError "Missing required fields in one of the cards") ∧
    generate_prompt_assessment
      ⟨some "R", some ⟨some ["SQL"], some (some []), some "extreme", some (.int 0)⟩⟩
      ≠ .error (.valueError "Number of questions must be greater than 1") := by
  refine ⟨rfl, fun h => ?_⟩
  rw [show generate_prompt_assessment
        ⟨some "R", some ⟨some ["SQL"], some (some []), some "extreme", some (.int 0)⟩⟩
        = .error (.valueError "Missing required fields in one of the cards") from rfl] at h
  simp at h

/-- C7 (corrected): validation runs in the source order — (1) role/card
key presence, (2) Python-truthiness of the card fields (tools non-null),
(3) integer conversion and the `< 1` bound, (4) level membership — and
for an input violating several conditions the first violated check's
error is raised. A present-but-zero integer `noOfQuestions` is falsy and
is caught by check (2); only a truthy value converting below 1 (such as
the string `"0"`) reaches check (3). Each conjunct below keeps the level
invalid, showing the earlier check wins. -/
theorem claim_C7_check_order (role lv : String) (kws tools : List String) (q : PyVal)
    (n : Int) (c : Card)
    (hk : kws ≠ []) (hl : lv ≠ "") (hq : q.truthy = true)
    (hc : pyIntConv q = .ok n) (hn : n < 1)
    (hlev : pyLower lv ∉ (["low", "medium", "high"] : List String)) :
    generate_prompt_assessment ⟨none, some c⟩
      = .error (.valueError "Missing required assessment data") ∧
    generate_prompt_assessment ⟨some role, none⟩
      = .error (.valueError "Missing required assessment data") ∧
    generate_prompt_assessment ⟨some role, some ⟨some [], some (some tools), some lv, some q⟩⟩
      = .error (.valueError "Missing required fields in one of the cards") ∧
    generate_prompt_assessment ⟨some role, some ⟨some kws, some (some tools), some lv, some (.int 0)⟩⟩
      = .error (.valueError "Missing required fields in one of the cards") ∧
    generate_prompt_assessment ⟨some role, some ⟨some kws, some (some tools), some lv, some q⟩⟩
      = .error (.valueError "Number of questions must be greater than 1") ∧
    generate_prompt_assessment ⟨some role, some ⟨some kws, some (some tools), some lv, some (.int 1)⟩⟩
      = .error (.valueError "Level must be 'low', 'medium', or 'high'") := by
  refine ⟨rfl, rfl, ?_, ?_, ?_, ?_⟩
  · exact gpa_missing_of_falsy role lv [] tools q (Or.inl rfl)
  · exact gpa_missing_of_falsy role lv kws tools (.int 0) (by simp [PyVal.truthy])
  · exact gpa_count_error role lv kws tools q n hk hl hq hc hn
  · exact gpa_level_error role lv kws tools (.int 1) 1 hk hl (by decide) rfl (by omega) hlev

/-- Witness for C7: the ordering theorem evaluated with keywords
`["SQL"]`, level `"extreme"` and question count `"0"`. -/
theorem claim_C7_witness :
    generate_prompt_assessment ⟨none, some ⟨none, none, none, none⟩⟩
      = .error (.valueError "Missing required assessment data") ∧
    generate_prompt_assessment ⟨some "R", none⟩
      = .error (.valueError "Missing required assessment data") ∧
    generate_prompt_assessment ⟨some "R", some ⟨some [], some (some []), some "extreme", some (.str "0")⟩⟩
      = .error (.valueError "Missing required fields in one of the cards") ∧
    generate_prompt_assessment ⟨some "R", some ⟨some ["SQL"], some (some []), some "extreme", some (.int 0)⟩⟩
      = .error (.valueError "Missing required fields in one of the cards") ∧
    generate_prompt_assessment ⟨some "R", some ⟨some ["SQL"], some (some []), some "extreme", some (.str "0")⟩⟩
      = .error (.valueError "Number of questions must be greater than 1") ∧
    generate_prompt_assessment ⟨some "R", some ⟨some ["SQL"], some (some []), some "extreme", some (.int 1)⟩⟩
      = .error (.valueError "Level must be 'low', 'medium', or 'high'") :=
  claim_C7_check_order "R" "extreme" ["SQL"] [] (.str "0") 0 ⟨none, none, none, none⟩
    (by decide) (by decide) (by decide) rfl (by omega) (by decide)

/-- C8 (confirmed): whenever the single POST fails at the transport level
(`httpx.RequestError`: connection error, timeout, DNS failure),
`get_result` raises exactly the one generic error about failing to get a
response from the provider, makes no retry (one request), and returns no
other result. -/
theorem claim_C8_transport_error (p msg : String) (net : String → HttpOutcome)
    (hnet : net (requestText p) = .transportError msg) :
    (get_result p net).result
      = .error (.exception "Error in getting response from Gemini API") ∧
    (get_result p net).numRequests = 1 := by
  refine ⟨?_, rfl⟩
  simp only [get_result, hnet]

/-- Witness for C8: a simulated connection failure. -/
theorem claim_C8_witness :
    (get_result "x" (fun _ => HttpOutcome.transportError "connection refused")).result
      = .error (.exception "Error in getting response from Gemini API") ∧
    (get_result "x" (fun _ => HttpOutcome.transportError "connection refused")).numRequests = 1 :=
  claim_C8_transport_error "x" "connection refused" _ rfl

/-- C9 counterexample: for a `KeyError` on key `role`, the 400 detail is
`Missing key in input data: 'role'` — Python's `str` of a `KeyError`
wraps the key in quotes — and not the unquoted
`Missing key in input data: role` the claim states. -/
theorem claim_C9_counterexample :
    generate_assessment_endpoint (.error (.keyError "role"))
      = .httpException 400 "Missing key in input data: 'role'" ∧
    generate_assessment_endpoint (.error (.keyError "role"))
      ≠ .httpException 400 "Missing key in input data: role" :=
  ⟨rfl, by decide⟩

/-- C9 (corrected): the endpoint maps a service `KeyError` on key `k` to
HTTP 400 with detail `Missing key in input data: ` followed by `str(e)`,
which is `k` wrapped in single quotes; any other exception with message
`m` to HTTP 500 with detail `An error occurred: m`; and a returned string
`s` to HTTP 200 with body `{"assessment": s}`. -/
theorem claim_C9_endpoint_mapping (k m s : String) (e : PyError)
    (hke : ∀ key, e ≠ .keyError key) (hm : e.pyStr = m) :
    generate_assessment_endpoint (.error (.keyError k))
      = .httpException 400 ("Missing key in input data: '" ++ k ++ "'") ∧
    generate_assessment_endpoint (.error e)
      = .httpException 500 ("An error occurred: " ++ m) ∧
    generate_assessment_endpoint (.ok s) = .ok s := by
  refine ⟨rfl, ?_, rfl⟩
  subst hm
  cases e with
  | keyError key => exact absurd rfl (hke key)
  | valueError m => rfl
  | typeError m => rfl
  | httpStatusError st => rfl
  | requestError m => rfl
  | exception m => rfl

/-- Witness for C9: the endpoint mapping evaluated for the key `role`, a
generic provider failure, and a successful generation. -/
theorem claim_C9_witness :
    generate_assessment_endpoint (.error (.keyError "role"))
      = .httpException 400 ("Missing key in input data: '" ++ "role" ++ "'") ∧
    generate_assessment_endpoint (.error (.exception "Error in getting response from Gemini API"))
      = .httpException 500 ("An error occurred: " ++ "Error in getting response from Gemini API") ∧
    generate_assessment_endpoint (.ok "**Question 1**") = .ok "**Question 1**" :=
  claim_C9_endpoint_mapping "role" "Error in getting response from Gemini API" "**Question 1**"
    (.exception "Error in getting response from Gemini API")
    (fun _ h => PyError.noConfusion h) rfl

/-- A pattern written between two other strings occurs in the whole. -/
lemma strContains_of_middle (a pat b s : String) (h : s = a ++ (pat ++ b)) :
    strContains s pat := by
  subst h
  exact ⟨a.data, b.data, by simp [String.data_append, List.append_assoc]⟩

set_option maxRecDepth 8000

/-- C10 (confirmed): the level token is rendered verbatim — validation
lower-cases it only for the membership test — so for any otherwise-valid
card with level `"HIGH"`, the returned prompt contains `HIGH complexity`,
and at the concrete scenario input the prompt does not contain
`high complexity`. -/
theorem claim_C10_level_verbatim (role : String) (kws tools : List String) (n : Int)
    (hk : kws ≠ []) (hn : 1 ≤ n) :
    (∃ s, generate_prompt_assessment
        ⟨some role, some ⟨some kws, some (some tools), some "HIGH", some (.int n)⟩⟩ = .ok s
      ∧ strContains s "HIGH complexity") ∧
    (generate_prompt_assessment
        ⟨some "Backend Engineer", some ⟨some ["APIs"], some (some []), some "HIGH", some (.int 2)⟩⟩
      = .ok "I want 2 assessment questions of HIGH complexity for Backend Engineer on APIs." ∧
     ¬ strContains "I want 2 assessment questions of HIGH complexity for Backend Engineer on APIs."
        "high complexity") := by
  have htruthy : (PyVal.int n).truthy = true := by
    simp only [PyVal.truthy, bne_iff_ne, ne_eq, decide_eq_true_eq]; omega
  refine ⟨⟨_, gpa_ok role "HIGH" kws tools (.int n) n hk (by decide) htruthy rfl hn
    (by decide), ?_⟩, rfl, by decide⟩
  refine strContains_of_middle
    ("I want " ++ (PyVal.int n).render ++ " assessment questions of ")
    "HIGH complexity"
    (" for " ++ role ++ " on " ++ joinComma kws
      ++ (if tools ≠ [] then " using " ++ joinComma tools else "") ++ ".")
    _ ?_
  simp only [spec_rendered_prompt, String.append_assoc]
  rfl

/-- Witness for C10: the verbatim-level theorem at the scenario input. -/
theorem claim_C10_witness :
    (∃ s, generate_prompt_assessment
        ⟨some "Backend Engineer", some ⟨some ["APIs"], some (some []), some "HIGH", some (.int 2)⟩⟩
        = .ok s ∧ strContains s "HIGH complexity") ∧
    (generate_prompt_assessment
        ⟨some "Backend Engineer", some ⟨some ["APIs"], some (some []), some "HIGH", some (.int 2)⟩⟩
      = .ok "I want 2 assessment questions of HIGH complexity for Backend Engineer on APIs." ∧
     ¬ strContains "I want 2 assessment questions of HIGH complexity for Backend Engineer on APIs."
        "high complexity") :=
  claim_C10_level_verbatim "Backend Engineer" ["APIs"] [] 2 (by decide) (by decide)
